import Mathlib

/-!
Verification of the ezSMT / smt_switch sources against their specification.

The Python sources are shallowly embedded:
* `src/functions.py`            — the function taxonomy (arity, params, osort, call)
* `src/smt_switch/src/smt.py`   — the dispatch facade (gen_operator, And/Or, Assert,
                                  set_solver cache, set_option, get_value, fun2sort)
* `src/smt_switch/src/solvers/CVC4Solver.py` and `BoolectorSolver.py` — the adapters.

Python `ValueError`/`TypeError`/`AttributeError` raise sites are embedded as an
error enumeration, one constructor per distinct raise site the claims exercise;
fallible code returns `Except`.  Native solver handles are embedded as a free
term algebra (`NExpr`), since the native engines are opaque collaborators.
-/

/-- The sorts of `src/smt_switch/src/sorts.py` (structural equality).
Modelled from the spec: the sorts module is not under `src/`; per the spec,
`Sort` is a variant over Bool, Int, Real and BitVec(width), immutable, with
structural equality.  The width is an `Int` because `extract` can produce a
nonpositive width. -/
inductive SSort where
  | Bool : SSort
  | Int : SSort
  | Real : SSort
  | BitVec (width : Int) : SSort
deriving DecidableEq, Repr

/-- The distinct Python raise sites (and error classes) the claims exercise. -/
inductive SmtError where
  /-- `Ite.osort`: "Need all three inputs to determine output sort." -/
  | iteNeedsThree
  /-- `Ite.osort`: "Ite needs to have a consistent output sort." -/
  | iteInconsistent
  /-- `Ite.osort`: "Can't determine output sort based on inputs." -/
  | iteNoSort
  /-- `__gen_operator`: "In strict mode and received ... args when max arity = ..." -/
  | strictMaxArity
  /-- `__gen_operator`: "Expected ... inputs to operator but received ..." -/
  | wrongArgCount
  /-- `__gen_operator`: the `assert len(fun.args) == fdata.num_indices` failure. -/
  | indexCountAssert
  /-- solver `apply_fun` / `Assert`: "you must respect function arity" (ArityError). -/
  | arityErr
  /-- `Assert`: "Can only assert formulas of sort Bool." (SortError). -/
  | sortErr
  /-- Python `AttributeError`: attribute lookup (`.sort`, …) on a bare value. -/
  | attributeErr
  /-- Python `TypeError`: subscripting a non-sequence, or calling with a wrong
  number of positional arguments. -/
  | typeErr
  /-- Python `KeyError`: missing translation-table entry. -/
  | keyErr
  /-- `NotImplementedError` (the deprecated facade `get_value`). -/
  | notImplementedErr
  /-- solver `get_value`/`get_model`: "Solver has not been run" (NotSolvedError). -/
  | notSolvedErr
  /-- solver `get_value`/`get_model`: "Problem is unsat" (UnsatQueryError). -/
  | unsatQueryErr
  /-- `sorts.BitVec`: malformed width (InvalidSort). -/
  | invalidSortErr
  /-- `FunctionBase.__call__`: "Functions are not callable in strict mode." -/
  | strictCallErr
  /-- Python `IndexError`: `[0]` / `[-1]` on an empty list. -/
  | indexErr
  /-- `set_logic`: the backend does not support the requested logic. -/
  | unsupportedLogicErr
deriving DecidableEq, Repr

/-- A value a client can pass to the facade: a wrapped solver Term (carrying its
sort and an opaque native handle, per `terms.py`'s TermBase), or a bare Python
bool / int literal. -/
inductive PyAtom where
  | term (sort : SSort) (handle : Nat) : PyAtom
  | pybool (b : Bool) : PyAtom
  | pyint (n : Int) : PyAtom
deriving DecidableEq, Repr

/-- A positional argument at a call surface: a non-list value, or a Python list
of values (the sources unpack at most one list level, so one level suffices). -/
inductive PyVal where
  | atom (a : PyAtom) : PyVal
  | pylist (xs : List PyAtom) : PyVal
deriving DecidableEq, Repr

/-- Shorthand for a wrapped Term argument. -/
abbrev PyVal.tm (s : SSort) (h : Nat) : PyVal := .atom (.term s h)

/-- Shorthand for a bare Python bool argument. -/
abbrev PyVal.bl (b : Bool) : PyVal := .atom (.pybool b)

/-- Shorthand for a bare Python int argument. -/
abbrev PyVal.iv (n : Int) : PyVal := .atom (.pyint n)

/-- `getattr(arg, 'sort', None)`: Terms carry a sort, bare literals do not. -/
def PyVal.sortAttr : PyVal → Option SSort
  | .atom (.term s _) => some s
  | _ => none

/-- The `if args and isinstance(args[0], list): args = args[0]` idiom used at
every call surface: when the first positional argument is a list, the whole
argument tuple is replaced by that list's elements. -/
def unpackListArg (args : List PyVal) : List PyVal :=
  match args with
  | .pylist xs :: _ => xs.map .atom
  | _ => args

/-- Modelled from the spec: `smtutils.sorts_list` (the `smtutils` module is not
under `src/`).  Per the spec's data model a Term carries a Sort and a bare
host literal carries none; its call sites (`filter(lambda arg: arg is not
None, ...)` and the `getattr` conventions) show it maps each argument to its
sort, `None` for bare values. -/
def sorts_list (args : List PyVal) : List (Option SSort) :=
  args.map PyVal.sortAttr

/-- Python truthiness of `reduce(lambda x, y: x and y, l)` on a list of
sort-or-None values: `x and y` is falsy iff `x` or `y` is; the chain is truthy
iff every element is a (truthy) sort. -/
def pyAndReduceTruthy (l : List (Option SSort)) : Bool :=
  l.all Option.isSome

/-- Identities of the operator families the claims exercise (the closed
enumeration of function names; `__eq__` compares the class, embedded as this
tag, plus `params`). -/
inductive FuncId where
  | ExtractFn | AndFn | OrFn | EqualsFn | IteFn | NotFn
deriving DecidableEq, Repr

namespace EzFun

/-- `functions.py` arity record: `{'min': m, 'max': M}` with `max` possibly
`inf` (embedded as `none`). -/
structure Arity where
  min : Nat
  max : Option Nat
deriving DecidableEq, Repr

/-- `Ite.osort` (`src/functions.py`, lines 164–179): requires exactly 3
arguments; the "consistent output sort" test is `not reduce(lambda x, y:
x and y, arg_sorts[1:])`, then the first non-None sort among the last two
argument sorts is returned. -/
def Ite.osort (args : List PyVal) : Except SmtError SSort :=
  if args.length ≠ 3 then
    .error .iteNeedsThree
  else
    let arg_sorts := sorts_list args
    if ¬ pyAndReduceTruthy (arg_sorts.drop 1) then
      .error .iteInconsistent
    else
      match (arg_sorts.drop 1).filterMap id with
      | [] => .error .iteNoSort
      | s :: _ => .ok s

/-- `Equals.osort` (`src/functions.py`, line 87–88): always Bool. -/
def Equals.osort (_args : List PyVal) : SSort := SSort.Bool

/-- `Equals.arity` (`src/functions.py`, lines 81–82). -/
def Equals.arity : Arity := ⟨2, some 2⟩

/-- `And.arity` / `Or.arity` (`src/functions.py`): min 2, max inf. -/
def AndOr.arity : Arity := ⟨2, none⟩

/-- `extract` operator instance (`src/functions.py`, lines 271–297): the
constructor stores `ub` and `lb` with no validation of any kind. -/
structure extract where
  ub : Int
  lb : Int
deriving DecidableEq, Repr

/-- `extract.width` property: `ub - lb + 1`. -/
def extract.width (e : extract) : Int := e.ub - e.lb + 1

/-- `extract.params` property: `(ub, lb)`. -/
def extract.params (e : extract) : Int × Int := (e.ub, e.lb)

/-- `extract.arity` (`src/functions.py`, lines 272–273). -/
def extract.arity : Arity := ⟨1, some 1⟩

/-- Modelled from the spec: the `sorts.BitVec` constructor (the `sorts` module
is not under `src/`); per the spec, construction validates that the width is
at least 1 and fails with `InvalidSort` otherwise. -/
def mkBitVec (w : Int) : Except SmtError SSort :=
  if w ≥ 1 then .ok (SSort.BitVec w) else .error .invalidSortErr

/-- `extract.osort` (`src/functions.py`, lines 296–297): `sorts.BitVec(self.width)`,
with no index validation of its own. -/
def extract.osort (e : extract) (_args : List PyVal) : Except SmtError SSort :=
  mkBitVec e.width

/-- Result of calling a `functions.py` function object: a bare Python bool, an
argument returned unchanged, a dispatch `args[0].solver.apply_fun(self, *args)`
into the active backend (recorded with the function identity and the argument
list), or a raise. -/
inductive CallRes where
  | boolLit (b : Bool)
  | single (a : PyVal)
  | applied (f : FuncId) (args : List PyVal)
  /-- an `smtutils.operator` object (identity plus bound argument tuple) was
  returned instead: no backend call happened. -/
  | operRes (f : FuncId) (bound : List PyVal)
  | err (e : SmtError)
deriving DecidableEq, Repr

/-- `And.__call__` (`src/functions.py`, lines 113–127): disallowed in strict
mode; unpacks one list argument; with > 1 arguments dispatches to the backend,
with exactly 1 returns it unchanged, with none returns Python `True`. -/
def And.call (strict : Bool) (args : List PyVal) : CallRes :=
  if strict then .err .strictCallErr
  else
    let args := unpackListArg args
    if args.length > 1 then .applied .AndFn args
    else
      match args with
      | [a] => .single a
      | _ => .boolLit true

/-- `Or.__call__` (`src/functions.py`, lines 141–154): same shape as
`And.__call__` with identity element `False`. -/
def Or.call (strict : Bool) (args : List PyVal) : CallRes :=
  if strict then .err .strictCallErr
  else
    let args := unpackListArg args
    if args.length > 1 then .applied .OrFn args
    else
      match args with
      | [a] => .single a
      | _ => .boolLit false

end EzFun

namespace Smt

/-- The `fdata` namedtuple of `smt_switch/src/functions.py`.
Modelled from the spec: that module is not under `src/`; per the spec an
operator family carries a number of index parameters and an operand arity
range (`num_indices`, `min_arity`, `max_arity`). -/
structure Fdata where
  num_indices : Nat
  min_arity : Nat
  max_arity : Nat
deriving DecidableEq, Repr

/-- Python's `sys.maxsize` (the unbounded max arity used for And/Or). -/
def pymaxsize : Nat := 2 ^ 63 - 1

/-- `smtutils.operator` instances: a function identity plus the argument tuple
bound so far (for an indexed family with all indices bound, `args` is the index
tuple).  Modelled from the spec (the `smtutils` module is not under `src/`):
a partially applied operator object carrying bound parameters. -/
structure Oper where
  func : FuncId
  args : List PyVal
deriving DecidableEq, Repr

/-- What a `__gen_operator` dispatch produces: a (partially applied) operator
object with no backend call, a call `apply_fun(op, *operands)` into the active
backend (recorded as the operator and its operand list), or a raise. -/
inductive GenRes where
  | oper (op : Oper)
  | applied (op : Oper) (operands : List PyVal)
  | err (e : SmtError)
deriving DecidableEq, Repr

/-- `__gen_operator` (`src/smt_switch/src/smt.py`, lines 39–97): unpacks a list
argument; if `fun` is already an `operator` (all indices bound, per the
`assert`), it applies when given strictly more than `min_arity` arguments and
otherwise returns `operator(fun.func, *args)`; if `fun` is a plain generated
function, an argument count equal to `num_indices` (or zero) binds the indices
into an operator, a count of at least `num_indices + min_arity` splits the
arguments and applies, and anything else raises.  In strict mode an argument
count above `max_arity` raises on either application path. -/
def gen_operator (strict : Bool) (f : Oper ⊕ FuncId) (fdata : Fdata)
    (args0 : List PyVal) : GenRes :=
  let args := unpackListArg args0
  match f with
  | .inl op =>
    if op.args.length ≠ fdata.num_indices then .err .indexCountAssert
    else if args.length > fdata.min_arity then
      if strict ∧ args.length > fdata.max_arity then .err .strictMaxArity
      else .applied op args
    else .oper ⟨op.func, args⟩
  | .inr fid =>
    if args.length = fdata.num_indices ∨ args.length = 0 then .oper ⟨fid, args⟩
    else if fdata.num_indices + fdata.min_arity ≤ args.length then
      if strict ∧ args.length > fdata.max_arity then .err .strictMaxArity
      else .applied ⟨fid, args.take fdata.num_indices⟩ (args.drop fdata.num_indices)
    else .err .wrongArgCount

/-- Calling an operator object produced for an indexed family.
Modelled from the spec: `smtutils.operator.__call__` (the `smtutils` module is
not under `src/`) resumes the uniform dispatch — the wrapped generated closure
re-enters `__gen_operator` with the operator's bound arguments prepended to
the new ones, which is what lets `Extract(7,0)(bv)` and `Extract(7,0,bv)` go
through one call surface. -/
def Oper.call (strict : Bool) (op : Oper) (fdata : Fdata)
    (args : List PyVal) : GenRes :=
  gen_operator strict (.inr op.func) fdata (op.args ++ args)

/-- The `fdata` of the `Extract` family.
Modelled from the spec: `Extract(upper, lower)` has two index parameters and
exactly one bit-vector operand. -/
def extractFdata : Fdata := ⟨2, 1, 1⟩

/-- View a `__gen_operator` outcome as a call result (an operator object is
neither a bool literal, an unchanged argument, nor a backend call). -/
def genToCall : GenRes → EzFun.CallRes
  | .oper op => .operRes op.func op.args
  | .applied op operands => .applied op.func operands
  | .err e => .err e

/-- `_And` after its list handling (`src/smt_switch/src/smt.py`, lines 141–145):
`len(args) == 1` returns the argument unchanged, otherwise
`__gen_operator(_And, fdata(0, 1, sys.maxsize), *args)`. -/
def andFacadeTail (args : List PyVal) : EzFun.CallRes :=
  match args with
  | [a] => .single a
  | _ => genToCall (gen_operator false (.inr .AndFn) ⟨0, 1, pymaxsize⟩ args)

/-- `_And` (`src/smt_switch/src/smt.py`, lines 131–145): in strict mode,
dispatch with `fdata(0, 2, sys.maxsize)`; otherwise an explicit empty list
returns Python `True`, a nonempty list is unpacked, and the rest is
`andFacadeTail`. -/
def andFacade (strict : Bool) (args : List PyVal) : EzFun.CallRes :=
  if strict then genToCall (gen_operator true (.inr .AndFn) ⟨0, 2, pymaxsize⟩ args)
  else
    match args with
    | .pylist xs :: _ =>
      if xs = [] then .boolLit true
      else andFacadeTail (xs.map .atom)
    | _ => andFacadeTail args

/-- `_Or` after its list handling (`src/smt_switch/src/smt.py`, lines 158–161). -/
def orFacadeTail (args : List PyVal) : EzFun.CallRes :=
  match args with
  | [a] => .single a
  | _ => genToCall (gen_operator false (.inr .OrFn) ⟨0, 1, pymaxsize⟩ args)

/-- `_Or` (`src/smt_switch/src/smt.py`, lines 148–161): same shape as `_And`
with identity element `False`. -/
def orFacade (strict : Bool) (args : List PyVal) : EzFun.CallRes :=
  if strict then genToCall (gen_operator true (.inr .OrFn) ⟨0, 2, pymaxsize⟩ args)
  else
    match args with
    | .pylist xs :: _ =>
      if xs = [] then .boolLit false
      else orFacadeTail (xs.map .atom)
    | _ => orFacadeTail args

/-- The `'Extract'` entry of `fun2sort` (`src/smt_switch/src/smt.py`, line 314):
`lambda ub, lb, arg: sorts.BitVec(ub - lb + 1)` — no index validation. -/
def fun2sortExtract (ub lb : Int) (_arg : PyVal) : Except SmtError SSort :=
  EzFun.mkBitVec (ub - lb + 1)

end Smt

/-- An atomic native argument handed to an engine: a pre-existing native handle,
a `mkBoolConst` constant, a materialized theory constant, or a raw Python value
passed through unconverted (`getattr(arg, 'solver_term', arg)` on a bare value). -/
inductive NAtom where
  | handle (n : Nat)
  | boolConst (b : Bool)
  | tconst (sort : SSort) (v : PyAtom)
  | rawPy (a : PyAtom)
  | rawList (xs : List PyAtom)
deriving DecidableEq, Repr

/-- A native engine expression: the engines are opaque collaborators, so native
construction is embedded as a free algebra over the operations invoked
(`mkExpr(fun, args)` / the Boolector node constructors). -/
inductive NExpr where
  | atom (a : NAtom)
  | node (f : FuncId) (indexParams : List PyVal) (args : List NAtom)
deriving DecidableEq, Repr

namespace EzFun

/-- The `functions.py` function instances the solver adapters receive (the
adapters key their translation tables by `fun.__class__` and read `arity`,
`params` and `osort` off the instance). -/
inductive EzFunc where
  | equalsF
  | andF
  | orF
  | iteF
  | extractF (e : extract)
deriving DecidableEq, Repr

/-- The class tag of a function instance (dict keys / `fun.__class__`). -/
def EzFunc.fid : EzFunc → FuncId
  | .equalsF => .EqualsFn
  | .andF => .AndFn
  | .orF => .OrFn
  | .iteF => .IteFn
  | .extractF _ => .ExtractFn

/-- The `arity` attribute of each instance (`src/functions.py`). -/
def EzFunc.arity : EzFunc → Arity
  | .equalsF => Equals.arity
  | .andF => AndOr.arity
  | .orF => AndOr.arity
  | .iteF => ⟨3, some 3⟩
  | .extractF _ => extract.arity

/-- The `params` property: `()` except for indexed `extract` (`(ub, lb)`). -/
def EzFunc.params : EzFunc → List PyVal
  | .extractF e => [.iv e.ub, .iv e.lb]
  | _ => []

/-- The `osort` method of each instance (`src/functions.py`). -/
def EzFunc.osort : EzFunc → List PyVal → Except SmtError SSort
  | .equalsF, _ => .ok SSort.Bool
  | .andF, _ => .ok SSort.Bool
  | .orF, _ => .ok SSort.Bool
  | .iteF, args => Ite.osort args
  | .extractF e, args => e.osort args

end EzFun

namespace BSolver

/-- A wrapped `terms.BoolectorTerm(self, fun, btor_expr, fun.osort(*args),
list(args))`. -/
structure BoolectorTerm where
  fn : EzFun.EzFunc
  solver_term : NExpr
  sort : SSort
  args : List PyVal
deriving DecidableEq, Repr

/-- `getattr(arg, 'solver_term', arg)`: a Term contributes its native handle,
anything else is passed through raw. -/
def solverTermOrRaw : PyVal → NAtom
  | .atom (.term _ h) => .handle h
  | .atom a => .rawPy a
  | .pylist xs => .rawList xs

/-- The strict-mode arity test of `BoolectorSolver.apply_fun`
(`src/smt_switch/src/solvers/BoolectorSolver.py`, line 107): by Python operator
precedence this is `(config.strict and len(args) < min) or (len(args) > max)`,
evaluated on the argument count before any list unpacking; `max` may be
`math.inf`, which no count exceeds. -/
def arityGate (strict : Bool) (a : EzFun.Arity) (nargs : Nat) : Bool :=
  (strict && decide (nargs < a.min)) ||
    (match a.max with
     | some m => decide (nargs > m)
     | none => false)

/-- `BoolectorSolver.apply_fun` (`BoolectorSolver.py`, lines 106–117): arity
gate, list unpacking, `getattr(arg, 'solver_term', arg)` over the arguments,
native construction via the `_BoolectorFuns[fun.__class__]` entry applied to
`solver_args + fun.params`, and wrapping with `fun.osort(*args)`. -/
def apply_fun (strict : Bool) (fn : EzFun.EzFunc) (args0 : List PyVal) :
    Except SmtError BoolectorTerm :=
  if arityGate strict fn.arity args0.length then .error .arityErr
  else
    let args := unpackListArg args0
    let solver_args := args.map solverTermOrRaw
    match fn.osort args with
    | .error e => .error e
    | .ok s => .ok ⟨fn, .node fn.fid fn.params solver_args, s, args⟩

/-- One constraint of `BoolectorSolver.Assert` (`BoolectorSolver.py`,
lines 119–136): reads `constraint.sort` (an `AttributeError` on a bare Python
value), requires it be `sorts.Bool()`, then asserts the native node and appends
it to the adapter's `_assertions` list. -/
def assertOne (assertions : List NExpr) (c : PyAtom) :
    Except SmtError (List NExpr) :=
  match c with
  | .term s h =>
    if s ≠ SSort.Bool then .error .sortErr
    else .ok (assertions ++ [.atom (.handle h)])
  | _ => .error .attributeErr

/-- `BoolectorSolver.Assert`: a list argument is asserted element by element,
anything else as a single constraint. -/
def Assert (assertions : List NExpr) (constraints : PyVal) :
    Except SmtError (List NExpr) :=
  match constraints with
  | .pylist cs => cs.foldlM assertOne assertions
  | .atom c => assertOne assertions c

/-- The three native satisfiability outcomes (spec §6: the backend
satisfiability primitive answers sat, unsat or unknown). -/
inductive NativeSatRes where
  | sat | unsat | unknown
deriving DecidableEq, Repr

/-- `BoolectorSolver.check_sat` (`BoolectorSolver.py`, lines 75–80):
`self.sat = True` exactly when `self._btor.Sat() == self._btor.SAT`, `False`
otherwise — the native unknown outcome is also mapped to `False`. -/
def check_sat (nativeAnswer : NativeSatRes) : Bool :=
  nativeAnswer = .sat

/-- The result wrapper `_BoolectorResults[var.sort.__class__](var.solver_term)`
(the table maps both `BitVec` and `Bool` to `BoolectorBitVecResult`). -/
structure BoolectorBitVecResult where
  node : NExpr
deriving DecidableEq, Repr

/-- `BoolectorSolver.get_value` (`BoolectorSolver.py`, lines 149–155): wrapper
when the last check was sat, `UnsatQueryError` when it was unsat(/unknown),
`NotSolvedError` when no check has run (`self.sat` still `None`); the
`_BoolectorResults` table raises `KeyError` for sorts other than
BitVec and Bool. -/
def get_value (sat : Option Bool) (sort : SSort) (node : NExpr) :
    Except SmtError BoolectorBitVecResult :=
  match sat with
  | some true =>
    match sort with
    | .BitVec _ => .ok ⟨node⟩
    | .Bool => .ok ⟨node⟩
    | _ => .error .keyErr
  | some false => .error .unsatQueryErr
  | none => .error .notSolvedErr

/-- `BoolectorSolver.set_logic` (`BoolectorSolver.py`, lines 82–86): accepted
logics are `QF_BV` and `QF_ABV`; anything else raises. -/
def set_logic (logicstr : String) : Except SmtError Unit :=
  if logicstr = "QF_BV" ∨ logicstr = "QF_ABV" then .ok ()
  else .error .unsupportedLogicErr

end BSolver

namespace CSolver

/-- A wrapped `terms.CVC4Term(self, op, cvc4terms, list(args))`. -/
structure CVC4Term where
  op : Smt.Oper
  solver_term : NExpr
  args : List PyVal
deriving DecidableEq, Repr

/-- Whether an argument is a wrapped Term (`isinstance(x, terms.CVC4Term)`). -/
def isTermArg : PyVal → Bool
  | .atom (.term _ _) => true
  | _ => false

/-- `CVC4Solver.apply_fun` (`CVC4Solver.py`, lines 128–158).  The strict-mode
arity check of this adapter is commented out in the source ("commented out
while updating functions"), so no arity validation happens on any path.  List
unpacking, then: in strict mode `[arg.solver_term for arg in args]` (an
`AttributeError` on a bare Python value); in permissive mode the last wrapped
Term among the arguments is found (`[-1]` raises `IndexError` when there is
none) and every bare argument is materialized as
`self.theory_const(cvc4term.sort, arg)`; finally
`self._em.mkExpr(cvc4fun, solver_args)` is wrapped up. -/
def apply_fun (strict : Bool) (op : Smt.Oper) (args0 : List PyVal) :
    Except SmtError CVC4Term :=
  let args := unpackListArg args0
  let solverArgsE : Except SmtError (List NAtom) :=
    if strict then
      args.mapM fun a =>
        match a with
        | .atom (.term _ h) => .ok (NAtom.handle h)
        | _ => .error .attributeErr
    else
      match (args.filter isTermArg).getLast? with
      | none => .error .indexErr
      | some lastTerm =>
        let inferSort := match lastTerm with
          | .atom (.term s _) => s
          | _ => SSort.Bool
        .ok (args.map fun a =>
          match a with
          | .atom (.term _ h) => NAtom.handle h
          | .atom v => NAtom.tconst inferSort v
          | .pylist xs => NAtom.rawList xs)
  match solverArgsE with
  | .error e => .error e
  | .ok solver_args => .ok ⟨op, .node op.func op.args solver_args, args⟩

/-- The `sort != bool and sort != sorts.Bool()` test on
`getattr(constraint, 'sort', type(constraint))`: a bare Python bool passes via
its type, a Term passes iff its sort is Bool, and a bare int fails. -/
def sortCheckFails : PyAtom → Bool
  | .term s _ => s ≠ SSort.Bool
  | .pybool _ => false
  | .pyint _ => true

/-- One constraint of `CVC4Solver.Assert` (`CVC4Solver.py`, lines 160–176):
sort check, then `assertFormula(getattr(constraint, 'solver_term',
self._em.mkBoolConst(constraint)))` — a bare bool is materialized with
`mkBoolConst`. -/
def assertOne (assertions : List NExpr) (c : PyAtom) :
    Except SmtError (List NExpr) :=
  if sortCheckFails c then .error .sortErr
  else
    match c with
    | .term _ h => .ok (assertions ++ [.atom (.handle h)])
    | .pybool b => .ok (assertions ++ [.atom (.boolConst b)])
    | .pyint n => .ok (assertions ++ [.atom (.boolConst (n ≠ 0))])

/-- `CVC4Solver.Assert`: a list argument is asserted element by element,
anything else as a single constraint. -/
def Assert (assertions : List NExpr) (constraints : PyVal) :
    Except SmtError (List NExpr) :=
  match constraints with
  | .pylist cs => cs.foldlM assertOne assertions
  | .atom c => assertOne assertions c

/-- Modelled from the spec: the native `checkSat().isSat()` answer.  The native
engine's satisfiability primitive answers one of sat/unsat/unknown (spec §6);
CVC4's `Result.isSat()` encodes the three as distinct integers with sat as 1. -/
def isSatCode : BSolver.NativeSatRes → Nat
  | .sat => 1
  | .unsat => 0
  | .unknown => 2

/-- `CVC4Solver.check_sat` (`CVC4Solver.py`, lines 95–101):
`self.sat = self._smt.checkSat().isSat() == 1` — both the unsat and the
unknown native outcomes become `False`. -/
def check_sat (nativeAnswer : BSolver.NativeSatRes) : Bool :=
  isSatCode nativeAnswer == 1

/-- The `_CVC4Results` wrapper kinds, selected by the queried term's sort
class. -/
inductive ResultKind where
  | bvRes | intRes | realRes | boolRes
deriving DecidableEq, Repr

/-- `_CVC4Results[var.sort.__class__]`. -/
def resultKindOf : SSort → ResultKind
  | .BitVec _ => .bvRes
  | .Int => .intRes
  | .Real => .realRes
  | .Bool => .boolRes

/-- The wrapper built by `CVC4Solver.get_value`:
`self._CVC4Results[var.sort.__class__](self._smt.getValue(var.solver_term))`. -/
structure CVC4Result where
  kind : ResultKind
  value : Int
deriving DecidableEq, Repr

/-- `CVC4Solver.get_value` (`CVC4Solver.py`, lines 192–198): wrapper when the
last check was sat, `UnsatQueryError` ("Problem is unsat") when `self.sat` is
falsy but not None, `NotSolvedError` ("Solver has not been run") when no check
has run; the native model valuation is opaque and passed in as `model`. -/
def get_value (model : Nat → Int) (sat : Option Bool) (sort : SSort)
    (handle : Nat) : Except SmtError CVC4Result :=
  match sat with
  | some true => .ok ⟨resultKindOf sort, model handle⟩
  | some false => .error .unsatQueryErr
  | none => .error .notSolvedErr

/-- `CVC4Solver.set_logic` (`CVC4Solver.py`, lines 103–104): forwards to the
native `setLogic` unconditionally. -/
def set_logic (_logicstr : String) : Except SmtError Unit := .ok ()

end CSolver

namespace Smt

/-- What the facade `Assert` hands to `_solver.Assert` for one constraint
(`src/smt_switch/src/smt.py`, lines 266–269): a Term's native `solver_term`,
or the `_solver.theory_const(sorts.Bool(), constraint)` wrapper materialized
for a bare value. -/
inductive Handoff where
  | nativeH (e : NExpr)
  | theoryConstH (sort : SSort) (v : PyAtom)
deriving DecidableEq, Repr

/-- One constraint of the facade `Assert` loop (`smt.py`, lines 259–269): the
same `getattr(constraint, 'sort', type(constraint))` sort check as the CVC4
adapter, then the handoff to the active solver's `Assert`. -/
def assertOne (handed : List Handoff) (c : PyAtom) :
    Except SmtError (List Handoff) :=
  if CSolver.sortCheckFails c then .error .sortErr
  else
    match c with
    | .term _ h => .ok (handed ++ [.nativeH (.atom (.handle h))])
    | v => .ok (handed ++ [.theoryConstH SSort.Bool v])

/-- The facade `Assert` (`smt.py`, lines 254–269): it begins with
`constraints[0]` — so a single non-sequence value (a Term, bool or int) raises
`TypeError` (not subscriptable) and an empty list raises `IndexError` — and
then iterates the constraints, producing the handoffs to `_solver.Assert`.
The Term-is-not-subscriptable part is modelled from the spec: `terms.py` is
not under `src/`, and the spec's Term owns only an operator, a sort, argument
terms and a native handle, with no element access. -/
def Assert (constraints : PyVal) : Except SmtError (List Handoff) :=
  match constraints with
  | .atom _ => .error .typeErr
  | .pylist [] => .error .indexErr
  | .pylist cs => cs.foldlM assertOne []

/-- The facade `get_value` (`smt.py`, lines 281–283): declared as
`def get_value(self, var)` — a module-level function with a stray `self`
parameter — whose body unconditionally raises `NotImplementedError`
("Deprecating results so waiting to just do get value correctly with terms").
Called with a single term it already fails with `TypeError` (missing
positional argument). -/
def get_value (args : List PyVal) : Except SmtError CSolver.CVC4Result :=
  if args.length = 2 then .error .notImplementedErr else .error .typeErr

/-- A call the facade places on the active adapter: which primitive, with
which positional arguments. -/
inductive AdapterCall where
  | setLogicCall (args : List String)
  | setOptionCall (args : List String)
deriving DecidableEq, Repr

/-- The facade `set_option` (`smt.py`, lines 206–208): its body is
`_solver.set_logic(optionstr, value)` — it invokes the adapter's `set_logic`,
not its `set_option`, passing both arguments. -/
def setOptionFacade (optionstr value : String) : AdapterCall :=
  .setLogicCall [optionstr, value]

/-- The facade `set_logic` (`smt.py`, lines 201–203). -/
def setLogicFacade (logicstr : String) : AdapterCall :=
  .setLogicCall [logicstr]

/-- Whether a placed adapter call targets the `set_option` primitive. -/
def AdapterCall.targetsSetOptionPrim : AdapterCall → Bool
  | .setOptionCall _ => true
  | .setLogicCall _ => false

/-- Dispatching an adapter call against `CVC4Solver`: Python checks the
positional arity of the bound method first (`set_logic(self, logicstr)` and
`set_option(self, optionstr, value)`), then runs the body of `CVC4Solver.py`
lines 103–110. -/
def cvc4RunCall : AdapterCall → Except SmtError Unit
  | .setLogicCall [l] => CSolver.set_logic l
  | .setLogicCall _ => .error .typeErr
  | .setOptionCall [_, _] => .ok ()
  | .setOptionCall _ => .error .typeErr

/-- Dispatching an adapter call against `BoolectorSolver` (`BoolectorSolver.py`
lines 82–90), with the same Python positional-arity discipline. -/
def btorRunCall : AdapterCall → Except SmtError Unit
  | .setLogicCall [l] => BSolver.set_logic l
  | .setLogicCall _ => .error .typeErr
  | .setOptionCall [_, _] => .ok ()
  | .setOptionCall _ => .error .typeErr

/-- The backend names of the `__solver_cache` / `__solver_map` dictionaries
(`smt.py`, lines 15–20). -/
inductive SolverName where
  | CVC4 | Z3 | Boolector
deriving DecidableEq, Repr

/-- A cached backend engine instance: its Python object identity and its
running assertion list (`BoolectorSolver._assertions` / the native engine's
assertion store). -/
structure SolverInst where
  instId : Nat
  assertions : List NExpr
deriving DecidableEq, Repr

/-- The facade's process-wide state: the `__solver_cache` slots, the active
`_solver` reference, and a counter giving fresh object identities. -/
structure SmtState where
  cache : SolverName → Option SolverInst
  active : Option SolverName
  nextId : Nat

/-- The initial module state: every cache slot `None`, `_solver = None`. -/
def initState : SmtState := ⟨fun _ => none, none, 0⟩

/-- `set_solver` (`smt.py`, lines 30–36): construct the engine only when the
cache slot is `None`, then point `_solver` at the cached instance. -/
def set_solver (st : SmtState) (n : SolverName) : SmtState :=
  match st.cache n with
  | none =>
    { cache := fun m => if m = n then some ⟨st.nextId, []⟩ else st.cache m
      active := some n
      nextId := st.nextId + 1 }
  | some _ => { st with active := some n }

/-- Asserting a (Bool-sorted, already native) formula on the active solver:
`_solver.Assert` appends to the active instance's assertion list; with no
active solver the attribute access on `None` raises. -/
def assertActive (st : SmtState) (φ : NExpr) : Except SmtError SmtState :=
  match st.active with
  | none => .error .attributeErr
  | some n =>
    .ok { st with
          cache := fun m =>
            if m = n then
              (st.cache n).map fun i => ⟨i.instId, i.assertions ++ [φ]⟩
            else st.cache m }

/-- A client-visible facade operation for the caching claims. -/
inductive FacadeOp where
  | setSolver (n : SolverName)
  | assertF (φ : NExpr)
deriving DecidableEq, Repr

/-- Running a sequence of facade operations. -/
def runOps (st : SmtState) : List FacadeOp → Except SmtError SmtState
  | [] => .ok st
  | .setSolver n :: rest => runOps (set_solver st n) rest
  | .assertF φ :: rest =>
    match assertActive st φ with
    | .error e => .error e
    | .ok st' => runOps st' rest

/-- The object identity cached for a backend name, if constructed. -/
def instIdAt (st : SmtState) (n : SolverName) : Option Nat :=
  (st.cache n).map SolverInst.instId

/-- The assertion list of the cached instance for a backend name. -/
def assertionsAt (st : SmtState) (n : SolverName) : Option (List NExpr) :=
  (st.cache n).map SolverInst.assertions

end Smt

/-- C2: `Ite.osort` requires exactly 3 arguments (true), and when the second and
third arguments' sorts match it returns that shared sort (true); but on
differing sorts it raises nothing: `Ite.osort(cond : Bool, a : Int, b : Bool)`
returns `Int` — the consistency test `not reduce(lambda x, y: x and y,
arg_sorts[1:])` is vacuously false on two genuine sorts (the source's own
`TODO: check for consistent output sort` marks the missing check), so the
claimed `InconsistentSort` failure never happens for differing Term sorts. -/
theorem C2_ite_osort_bug :
    EzFun.Ite.osort [.tm .Bool 0, .tm .Int 1, .tm .Bool 2] = .ok SSort.Int ∧
    EzFun.Ite.osort [.tm .Bool 0, .tm .Int 1] = .error .iteNeedsThree ∧
    EzFun.Ite.osort [.tm .Bool 0, .tm .Int 1, .tm .Int 2] = .ok SSort.Int ∧
    decide (SSort.Int = SSort.Bool) = false := by
  refine ⟨rfl, rfl, rfl, rfl⟩

/-- `unpackListArg` leaves an argument tuple alone when its first element is
not a Python list. -/
theorem unpackListArg_map_atom (args : List PyAtom) :
    unpackListArg (args.map .atom) = args.map .atom := by
  cases args <;> rfl

/-- C1 counterexample: an `Extract` operator already carrying its bound index
parameters `(7, 0)`, applied through `__gen_operator` to exactly its minimum
operand arity (one bit-vector term), does not proceed to the backend: the
`len(args) > fdata.min_arity` test is strict, so the call returns
`operator(fun.func, *args)` — a partially applied operator carrying the given
operand (and not the bound index parameters) — contradicting both "the minimum
operand arity or more proceeds to the backend" and "carrying the bound index
parameters only". -/
theorem C1_min_arity_counterexample :
    Smt.gen_operator false (.inl ⟨.ExtractFn, [.iv 7, .iv 0]⟩) Smt.extractFdata
        [.tm (.BitVec 8) 5] =
      .oper ⟨.ExtractFn, [.tm (.BitVec 8) 5]⟩ ∧
    decide (Smt.gen_operator false (.inl ⟨.ExtractFn, [.iv 7, .iv 0]⟩)
        Smt.extractFdata [.tm (.BitVec 8) 5] =
      .applied ⟨.ExtractFn, [.iv 7, .iv 0]⟩ [.tm (.BitVec 8) 5]) = false := by
  refine ⟨rfl, by decide⟩

/-- C1 as amended: (i) the two public call forms agree — calling the partially
applied `Extract(7,0)` operator on a term re-enters `__gen_operator` with the
indices prepended, and lands on the same `apply_fun(operator(Extract, 7, 0),
term)` backend application as the flat call `Extract(7, 0, term)`; (ii) for an
operator that already carries its index parameters, `__gen_operator` proceeds
to the backend exactly when given strictly more than `min_arity` operand
arguments, and otherwise returns a partially applied operator carrying the
given operand arguments (the bound indices are dropped), with no backend
call. -/
theorem C1_indexed_dispatch :
    (∀ (s : SSort) (h : Nat),
      Smt.Oper.call false ⟨.ExtractFn, [.iv 7, .iv 0]⟩ Smt.extractFdata
          [.tm s h] =
        .applied ⟨.ExtractFn, [.iv 7, .iv 0]⟩ [.tm s h] ∧
      Smt.gen_operator false (.inr .ExtractFn) Smt.extractFdata
          [.iv 7, .iv 0, .tm s h] =
        .applied ⟨.ExtractFn, [.iv 7, .iv 0]⟩ [.tm s h]) ∧
    (∀ (op : Smt.Oper) (fd : Smt.Fdata) (args : List PyAtom),
      op.args.length = fd.num_indices →
      Smt.gen_operator false (.inl op) fd (args.map .atom) =
        if fd.min_arity < args.length then .applied op (args.map .atom)
        else .oper ⟨op.func, args.map .atom⟩) := by
  constructor
  · intro s h
    exact ⟨rfl, rfl⟩
  · intro op fd args hlen
    simp only [Smt.gen_operator, unpackListArg_map_atom, hlen, ne_eq,
      not_true_eq_false, if_false, List.length_map]
    split <;> rfl

/-- C1 witness: the amended branch description applied to the concrete
already-indexed `Extract(7,0)` operator given two operand arguments (strictly
more than its minimum arity 1): the backend application happens. -/
theorem C1_indexed_dispatch_witness :
    Smt.gen_operator false (.inl ⟨.ExtractFn, [.iv 7, .iv 0]⟩) ⟨2, 1, 1⟩
        ([PyAtom.term (.BitVec 8) 1, PyAtom.term (.BitVec 8) 2].map .atom) =
      .applied ⟨.ExtractFn, [.iv 7, .iv 0]⟩
        ([PyAtom.term (.BitVec 8) 1, PyAtom.term (.BitVec 8) 2].map .atom) := by
  have h := C1_indexed_dispatch.2 ⟨.ExtractFn, [.iv 7, .iv 0]⟩ ⟨2, 1, 1⟩
    [PyAtom.term (.BitVec 8) 1, PyAtom.term (.BitVec 8) 2] rfl
  simpa using h

/-- C3 counterexample: at the `smt_switch` facade in permissive mode, `_And`
with zero (bare) arguments does not return `True`: the `And([]) --> True`
shortcut only fires for an explicit empty list, so `_And()` falls through to
`__gen_operator(_And, fdata(0, 1, maxsize))`, which binds zero indices and
returns an `operator` object; `_Or()` likewise. -/
theorem C3_zero_args_counterexample :
    Smt.andFacade false [] = .operRes .AndFn [] ∧
    decide (Smt.andFacade false [] = .boolLit true) = false ∧
    Smt.orFacade false [] = .operRes .OrFn [] ∧
    decide (Smt.orFacade false [] = .boolLit false) = false := by
  refine ⟨rfl, by decide, rfl, by decide⟩

/-- C3 as amended, in permissive mode: the `functions.py` `And`/`Or`
`__call__`s satisfy the claim exactly (zero arguments give the identity
element, one argument is returned unchanged, two or more dispatch to the
backend); at the `smt_switch` facade the identity element is produced only for
an explicit empty list argument (`And([])`/`Or([])`), a single argument (bare
or as a one-element list) is returned unchanged with no backend call, and two
or more arguments dispatch to the backend. -/
theorem C3_and_or_identities :
    (EzFun.And.call false [] = .boolLit true ∧
     EzFun.Or.call false [] = .boolLit false ∧
     (∀ a : PyAtom, EzFun.And.call false [.atom a] = .single (.atom a) ∧
        EzFun.Or.call false [.atom a] = .single (.atom a)) ∧
     (∀ a b : PyAtom,
        EzFun.And.call false [.atom a, .atom b] = .applied .AndFn [.atom a, .atom b] ∧
        EzFun.Or.call false [.atom a, .atom b] = .applied .OrFn [.atom a, .atom b])) ∧
    (Smt.andFacade false [.pylist []] = .boolLit true ∧
     Smt.orFacade false [.pylist []] = .boolLit false ∧
     (∀ a : PyAtom, Smt.andFacade false [.atom a] = .single (.atom a) ∧
        Smt.orFacade false [.atom a] = .single (.atom a) ∧
        Smt.andFacade false [.pylist [a]] = .single (.atom a) ∧
        Smt.orFacade false [.pylist [a]] = .single (.atom a)) ∧
     (∀ a b : PyAtom,
        Smt.andFacade false [.atom a, .atom b] = .applied .AndFn [.atom a, .atom b] ∧
        Smt.orFacade false [.atom a, .atom b] = .applied .OrFn [.atom a, .atom b])) := by
  refine ⟨⟨rfl, rfl, fun a => ⟨rfl, rfl⟩, fun a b => ⟨rfl, rfl⟩⟩,
          ⟨rfl, rfl, fun a => ⟨rfl, rfl, rfl, rfl⟩, fun a b => ⟨rfl, rfl⟩⟩⟩

/-- C4 counterexample: `extract(2, -1)` — a lower bound below 0 — is
constructed without any error (its `params` property answers `(2, -1)`), and
both its `osort` and the `fun2sort['Extract']` rule happily answer
`BitVec(4)`: no `InvalidIndex` check exists anywhere on the path. -/
theorem C4_no_invalid_index_check :
    (⟨2, -1⟩ : EzFun.extract).params = (2, -1) ∧
    EzFun.extract.osort ⟨2, -1⟩ [.tm (.BitVec 8) 0] = .ok (SSort.BitVec 4) ∧
    Smt.fun2sortExtract 2 (-1) (.tm (.BitVec 8) 0) = .ok (SSort.BitVec 4) := by
  refine ⟨rfl, rfl, rfl⟩

/-- C4 as amended: the output sort of `Extract(upper, lower)` is
`BitVec(upper - lower + 1)` — `Extract(7,0)` on an 8-bit term yields
`BitVec(8)` and `Extract(3,0)` yields `BitVec(4)` — but no `InvalidIndex`
validation is performed: a negative lower bound with positive resulting width
succeeds outright, and `upper < lower` fails only through the `BitVec`
width-at-least-1 sort validation (`InvalidSort`), not `InvalidIndex`. -/
theorem C4_extract_osort :
    (∀ (ub lb : Int) (args : List PyVal),
      EzFun.extract.osort ⟨ub, lb⟩ args = EzFun.mkBitVec (ub - lb + 1)) ∧
    EzFun.extract.osort ⟨7, 0⟩ [.tm (.BitVec 8) 0] = .ok (SSort.BitVec 8) ∧
    EzFun.extract.osort ⟨3, 0⟩ [.tm (.BitVec 8) 0] = .ok (SSort.BitVec 4) ∧
    (∀ ub lb : Int, ub < lb →
      EzFun.extract.osort ⟨ub, lb⟩ [] = .error .invalidSortErr) := by
  refine ⟨fun ub lb args => rfl, rfl, rfl, fun ub lb hlt => ?_⟩
  simp only [EzFun.extract.osort, EzFun.mkBitVec, EzFun.extract.width]
  rw [if_neg (by omega)]

/-- C4 witness: the amended statement at `Extract(1, 3)` (upper < lower): the
width is `-1` and the `BitVec` validation rejects it with `InvalidSort`. -/
theorem C4_extract_osort_witness :
    EzFun.extract.osort ⟨1, 3⟩ [] = .error .invalidSortErr :=
  C4_extract_osort.2.2.2 1 3 (by norm_num)

/-- C5: in strict mode `BoolectorSolver.apply_fun` enforces the arity range —
`Equals` with 1 or with 3 argument terms raises, with exactly 2 it succeeds —
but `CVC4Solver.apply_fun` performs no arity validation at all (its check is
commented out in the source, against its own "if config strict, check arity"
comment): `Equals` applied to 3 terms in strict mode proceeds straight to the
backend. -/
theorem C5_strict_arity :
    CSolver.apply_fun true ⟨.EqualsFn, []⟩ [.tm .Bool 1, .tm .Bool 2, .tm .Bool 3] =
      .ok ⟨⟨.EqualsFn, []⟩, .node .EqualsFn [] [.handle 1, .handle 2, .handle 3],
           [.tm .Bool 1, .tm .Bool 2, .tm .Bool 3]⟩ ∧
    BSolver.apply_fun true .equalsF [.tm .Bool 1] = .error .arityErr ∧
    BSolver.apply_fun true .equalsF [.tm .Bool 1, .tm .Bool 2, .tm .Bool 3] =
      .error .arityErr ∧
    BSolver.apply_fun true .equalsF [.tm .Bool 1, .tm .Bool 2] =
      .ok ⟨.equalsF, .node .EqualsFn [] [.handle 1, .handle 2], .Bool,
           [.tm .Bool 1, .tm .Bool 2]⟩ := by
  refine ⟨rfl, rfl, rfl, rfl⟩

/-- C6: `Assert` validation.  The sort-Bool requirement and the SortError on
everything else hold at both adapters; the CVC4 adapter accepts a bare Python
bool via `mkBoolConst` — but `BoolectorSolver.Assert` reads `constraint.sort`
first, so a bare bool fails there with `AttributeError` instead of being
accepted; and the facade `Assert` cannot take a single (non-sequence) term at
all: `constraints[0]` raises `TypeError` before any validation. -/
theorem C6_assert_validation :
    BSolver.Assert [] (.bl true) = .error .attributeErr ∧
    BSolver.Assert [] (.pylist [.pybool true]) = .error .attributeErr ∧
    CSolver.Assert [] (.bl true) = .ok [.atom (.boolConst true)] ∧
    Smt.Assert (.pylist [.pybool true]) = .ok [.theoryConstH .Bool (.pybool true)] ∧
    BSolver.Assert [] (.tm (.BitVec 8) 4) = .error .sortErr ∧
    CSolver.Assert [] (.tm (.BitVec 8) 4) = .error .sortErr ∧
    Smt.Assert (.pylist [.term (.BitVec 8) 4]) = .error .sortErr ∧
    BSolver.Assert [] (.tm .Bool 4) = .ok [.atom (.handle 4)] ∧
    CSolver.Assert [] (.tm .Bool 4) = .ok [.atom (.handle 4)] ∧
    Smt.Assert (.tm .Bool 4) = .error .typeErr := by
  refine ⟨rfl, rfl, rfl, rfl, rfl, rfl, rfl, rfl, rfl, rfl⟩

/-- C7 counterexample: the facade-level `get_value` (the spec's
`getValue(term)`) never returns a result wrapper and never raises
`NotSolvedError`: called with a term it fails with `TypeError` (its stray
`self` parameter leaves `var` missing), and called with two arguments its body
unconditionally raises `NotImplementedError` — in particular before any
satisfiability check the failure is not `NotSolvedError`. -/
theorem C7_facade_get_value_counterexample :
    Smt.get_value [.tm .Bool 7, .tm .Bool 8] = .error .notImplementedErr ∧
    Smt.get_value [.tm .Bool 7] = .error .typeErr ∧
    decide (SmtError.notImplementedErr = SmtError.notSolvedErr) = false ∧
    decide (SmtError.typeErr = SmtError.notSolvedErr) = false := by
  refine ⟨rfl, rfl, rfl, rfl⟩

/-- C7 as amended: the claimed trichotomy holds at the backend adapters —
`get_value` fails with `NotSolvedError` before any check, with
`UnsatQueryError` after an unsat result, and after a sat result returns the
backend-specific wrapper — while the facade-level `get_value` is deprecated
and always raises. -/
theorem C7_adapter_get_value :
    (∀ (model : Nat → Int) (s : SSort) (h : Nat),
      CSolver.get_value model none s h = .error .notSolvedErr ∧
      CSolver.get_value model (some false) s h = .error .unsatQueryErr ∧
      CSolver.get_value model (some true) s h = .ok ⟨CSolver.resultKindOf s, model h⟩) ∧
    (∀ (s : SSort) (e : NExpr),
      BSolver.get_value none s e = .error .notSolvedErr ∧
      BSolver.get_value (some false) s e = .error .unsatQueryErr) ∧
    (∀ (w : Int) (e : NExpr),
      BSolver.get_value (some true) (.BitVec w) e = .ok ⟨e⟩ ∧
      BSolver.get_value (some true) .Bool e = .ok ⟨e⟩) := by
  refine ⟨fun model s h => ⟨rfl, rfl, rfl⟩, fun s e => ⟨rfl, rfl⟩,
          fun w e => ⟨rfl, rfl⟩⟩

/-- C8 counterexample: both adapters' `check_sat` collapse the native unknown
outcome into `False` — the very value that encodes unsat — so the caller
cannot distinguish unknown from unsat. -/
theorem C8_unknown_collapsed :
    BSolver.check_sat .unknown = BSolver.check_sat .unsat ∧
    CSolver.check_sat .unknown = CSolver.check_sat .unsat ∧
    BSolver.check_sat .unknown = false ∧
    CSolver.check_sat .unknown = false := by
  refine ⟨rfl, rfl, rfl, rfl⟩

/-- C8 as amended: `check_sat` is two-valued, answering `True` exactly on the
native sat outcome and `False` on both unsat and unknown, at both adapters. -/
theorem C8_check_sat_two_valued :
    ∀ r : BSolver.NativeSatRes,
      (BSolver.check_sat r = true ↔ r = .sat) ∧
      (CSolver.check_sat r = true ↔ r = .sat) := by
  intro r
  cases r <;> exact ⟨by decide, by decide⟩

/-- `set_solver` never changes the object identity already cached for any
backend name (a fresh instance is only written into a `None` slot). -/
theorem Smt.instIdAt_set_solver (st : Smt.SmtState) (n m : Smt.SolverName)
    (i : Nat) (h : Smt.instIdAt st n = some i) :
    Smt.instIdAt (Smt.set_solver st m) n = some i := by
  unfold Smt.set_solver
  cases hc : st.cache m with
  | none =>
    have hnm : ¬ n = m := by
      intro e
      rw [Smt.instIdAt, e, hc] at h
      simp at h
    rw [Smt.instIdAt] at h ⊢
    simpa [hnm] using h
  | some inst =>
    rw [Smt.instIdAt] at h ⊢
    exact h

/-- Asserting on the active solver never changes the object identity cached
for any backend name (it only appends to an instance's assertion list). -/
theorem Smt.instIdAt_assertActive (st st' : Smt.SmtState) (φ : NExpr)
    (hr : Smt.assertActive st φ = .ok st') (n : Smt.SolverName) (i : Nat)
    (h : Smt.instIdAt st n = some i) : Smt.instIdAt st' n = some i := by
  unfold Smt.assertActive at hr
  cases ha : st.active with
  | none => rw [ha] at hr; exact absurd hr (by simp)
  | some a =>
    rw [ha] at hr
    injection hr with hr
    subst hr
    rw [Smt.instIdAt] at h ⊢
    by_cases hna : n = a
    · subst hna
      cases hc : st.cache n with
      | none => rw [hc] at h; simp at h
      | some j =>
        rw [hc] at h
        simp at h
        simp [hc, h]
    · simpa [hna] using h

/-- C9: the backend cache.  (i) Across any sequence of facade operations, once
a backend name has a cached instance, that slot keeps the identical instance
(same object identity) — construction happens at most once per name; (ii) the
concrete assert-on-A / switch-to-B / switch-back-to-A scenario: A's instance
keeps identity 0 and its assertion list still holds exactly the asserted
formula, unchanged by the switch, while B was constructed fresh as a separate
instance. -/
theorem C9_solver_cache :
    (∀ (ops : List Smt.FacadeOp) (st st' : Smt.SmtState) (n : Smt.SolverName)
        (i : Nat),
      Smt.runOps st ops = .ok st' → Smt.instIdAt st n = some i →
      Smt.instIdAt st' n = some i) ∧
    (∀ φ : NExpr, ∃ stf : Smt.SmtState,
      Smt.runOps Smt.initState
          [.setSolver .CVC4, .assertF φ, .setSolver .Boolector,
           .setSolver .CVC4] = .ok stf ∧
      stf.active = some .CVC4 ∧
      Smt.instIdAt stf .CVC4 = some 0 ∧
      Smt.assertionsAt stf .CVC4 = some [φ] ∧
      Smt.instIdAt stf .Boolector = some 1) := by
  constructor
  · intro ops
    induction ops with
    | nil =>
      intro st st' n i hrun h
      simp only [Smt.runOps] at hrun
      injection hrun with hrun
      subst hrun
      exact h
    | cons op rest ih =>
      intro st st' n i hrun h
      cases op with
      | setSolver m =>
        simp only [Smt.runOps] at hrun
        exact ih _ _ n i hrun (Smt.instIdAt_set_solver st n m i h)
      | assertF φ =>
        simp only [Smt.runOps] at hrun
        cases hm : Smt.assertActive st φ with
        | error e => rw [hm] at hrun; exact absurd hrun (by simp)
        | ok st1 =>
          rw [hm] at hrun
          exact ih _ _ n i hrun (Smt.instIdAt_assertActive st st1 φ hm n i h)
  · intro φ
    exact ⟨_, rfl, rfl, rfl, rfl, rfl⟩

/-- C9 witness: the stability part applied concretely — after activating CVC4
(identity 0 constructed) and then activating Boolector, the CVC4 slot still
holds identity 0. -/
theorem C9_solver_cache_witness :
    Smt.instIdAt (Smt.set_solver (Smt.set_solver Smt.initState .CVC4)
        .Boolector) .CVC4 = some 0 :=
  C9_solver_cache.1 [.setSolver .Boolector]
    (Smt.set_solver Smt.initState .CVC4) _ .CVC4 0 rfl rfl

/-- C10: for every option name and value, the facade `set_option` invokes the
active adapter's `set_logic` — never its `set_option` — with both arguments;
since both adapters' `set_logic` accept a single positional argument, the call
fails with `TypeError` instead of configuring anything. -/
theorem C10_set_option_misroutes :
    ∀ optionstr value : String,
      Smt.setOptionFacade optionstr value = .setLogicCall [optionstr, value] ∧
      (Smt.setOptionFacade optionstr value).targetsSetOptionPrim = false ∧
      Smt.cvc4RunCall (Smt.setOptionFacade optionstr value) = .error .typeErr ∧
      Smt.btorRunCall (Smt.setOptionFacade optionstr value) = .error .typeErr := by
  intro o v
  exact ⟨rfl, rfl, rfl, rfl⟩
